import Mathlib

/-!
Shallow embedding of the mcp-audio-tweaker core (services/base-audio-processor.ts,
services/advanced-audio-processor.ts and types/index.ts), together with proofs of
the frozen claims about the operation-to-filter-graph compiler, the variation
generator, the layering sub-compiler, the single-file job runner and the batch
scheduler.

Conventions of the embedding:
* JavaScript numbers are modelled as rationals `ℚ` (the claims under study only
  involve arithmetic that is exact in both models); the LCG state of the seeded
  random generator is modelled as `ℤ` with the reduction modulo `2^32` written
  explicitly, mirroring `% 0x100000000` on JS numbers.
* Optional fields of the TypeScript interfaces are `Option` fields; JavaScript
  truthiness tests (`if (x)`) on numeric fields are modelled as "present and
  nonzero", presence tests (`x !== undefined`) as `Option.isSome`, and the
  defaulting idiom `x || d` as `jsOrQ`.
* fluent-ffmpeg commands are modelled as a record of the audio-filter list plus
  the command-level settings the source sets; `command.audioFilters(fs)`
  appends the current contents of `fs` to the command (the library converts the
  argument to filter strings at call time, so later mutation of the caller's
  array does not reach the command).
* Filesystem and engine steps (validateInputFile, ensureOutputDirectory,
  handleExistingOutput, executeFFmpegCommand) live in utils/ffmpeg.ts, which is
  an external collaborator of the specified core; their outcomes are supplied
  by an environment record `FsEnv`, as is the glob result used for discovery
  and the wall clock read by `Date.now()`.
-/

namespace AudioTweaker

/-- JavaScript `a || d` on numbers (`0` is falsy, any other number is truthy). -/
def jsOrQ (a : Option ℚ) (d : ℚ) : ℚ :=
  match a with
  | some v => if v = 0 then d else v
  | none => d

/-- JavaScript truthiness of an optional numeric field: present and nonzero. -/
def jsTruthyQ (a : Option ℚ) : Bool :=
  match a with
  | some v => decide (v ≠ 0)
  | none => false

/-- JavaScript `%` (truncated remainder: the result carries the dividend's sign). -/
def jsMod (a n : ℤ) : ℤ :=
  if 0 ≤ a then a % n else -((-a) % n)

/-! ## Data model (types/index.ts) -/

structure VolumeOperation where
  adjust : Option ℚ := none
  normalize : Bool := false
  targetLUFS : Option ℚ := none
  deriving DecidableEq

structure FormatOperation where
  sampleRate : Option ℚ := none
  bitrate : Option ℚ := none
  channels : Option ℚ := none
  codec : Option String := none
  deriving DecidableEq

structure TrimEffect where
  start : ℚ
  stop : ℚ
  deriving DecidableEq

structure LoopEffect where
  enabled : Bool
  count : ℤ
  deriving DecidableEq

structure EffectsOperation where
  fadeIn : Option ℚ := none
  fadeOut : Option ℚ := none
  trim : Option TrimEffect := none
  loop : Option LoopEffect := none
  deriving DecidableEq

structure PitchOperation where
  semitones : ℚ
  cents : Option ℚ := none
  preserveFormants : Bool := false
  deriving DecidableEq

structure TempoOperation where
  factor : ℚ
  preservePitch : Bool := false
  deriving DecidableEq

structure SpectralOperation where
  bassBoost : Option ℚ := none
  trebleBoost : Option ℚ := none
  midCut : Option ℚ := none
  warmth : Option ℚ := none
  brightness : Option ℚ := none
  deriving DecidableEq

structure VariationOperation where
  count : ℕ
  pitchRange : Option ℚ := none
  volumeRange : Option ℚ := none
  timingRange : Option ℚ := none
  spectralRange : Option ℚ := none
  seed : Option ℤ := none
  deriving DecidableEq

structure Layer where
  blend : String := "mix"
  delay : Option ℚ := none
  pitch : Option ℚ := none
  volume : Option ℚ := none
  pan : Option ℚ := none
  deriving DecidableEq

structure LayeringOperation where
  layers : List Layer
  deriving DecidableEq

structure AdvancedEffectsOperation where
  pitch : Option PitchOperation := none
  tempo : Option TempoOperation := none
  spectral : Option SpectralOperation := none
  variations : Option VariationOperation := none
  layering : Option LayeringOperation := none
  deriving DecidableEq

structure AudioOperations where
  volume : Option VolumeOperation := none
  format : Option FormatOperation := none
  effects : Option EffectsOperation := none
  advanced : Option AdvancedEffectsOperation := none
  deriving DecidableEq

structure ProcessingInput where
  file : Option String := none
  directory : Option String := none
  pattern : Option String := none
  deriving DecidableEq

structure ProcessingOutput where
  file : Option String := none
  directory : Option String := none
  suffix : Option String := none
  format : Option String := none
  deriving DecidableEq

structure ProcessingResult where
  success : Bool
  inputFile : String
  outputFile : String
  processingTime : ℤ
  operations : AudioOperations
  error : Option String := none
  deriving DecidableEq

structure BatchProcessingResult where
  totalFiles : ℕ
  successfulFiles : ℕ
  failedFiles : ℕ
  results : List ProcessingResult
  totalProcessingTime : ℤ
  deriving DecidableEq

/-! ## The fluent-ffmpeg command model and the base compiler
    (BaseAudioProcessor.applyOperationsToCommand) -/

/-- One audio-filter directive emitted by the base compiler.  The constructors
record the parameters interpolated into the corresponding filter strings:
`volume=⟨db⟩dB`, `loudnorm=I=⟨I⟩:LRA=⟨LRA⟩:tp=⟨tp⟩`, `afade=t=in:ss=⟨ss⟩:d=⟨d⟩`,
`afade=t=out:st=⟨st⟩:d=⟨d⟩` and `aloop=loop=⟨n⟩:size=samples`. -/
inductive FilterDirective where
  | volume (db : ℚ)
  | loudnorm (target lra tp : ℚ)
  | afadeIn (ss d : ℚ)
  | afadeOut (st d : ℚ)
  | aloop (n : ℤ)
  deriving DecidableEq

structure FfmpegCommand where
  inputPath : Option String := none
  audioFilters : List FilterDirective := []
  audioFrequency : Option ℚ := none
  audioChannels : Option ℚ := none
  audioCodec : Option String := none
  audioBitrateK : Option ℚ := none
  seekInput : Option ℚ := none
  durationCap : Option ℚ := none
  deriving DecidableEq

/-- A freshly created command for one input has no filters or settings yet. -/
def createFFmpegCommand (inputFile : String) : FfmpegCommand :=
  { inputPath := some inputFile }

/-- mapCodecToFFmpeg from base-audio-processor.ts. -/
def mapCodecToFFmpeg (codec : String) : String :=
  if codec = "pcm" then "pcm_s16le"
  else if codec = "mp3" then "libmp3lame"
  else if codec = "aac" then "aac"
  else if codec = "vorbis" then "libvorbis"
  else if codec = "flac" then "flac"
  else codec

/-- The `operations.volume` block of applyOperationsToCommand. -/
def applyVolumeToCommand (command : FfmpegCommand) (volume : VolumeOperation) :
    FfmpegCommand :=
  let command :=
    match volume.adjust with
    | some a => { command with audioFilters := command.audioFilters ++ [.volume a] }
    | none => command
  if volume.normalize then
    let targetLUFS := jsOrQ volume.targetLUFS (-23)
    { command with audioFilters := command.audioFilters ++ [.loudnorm targetLUFS 7 (-2)] }
  else command

/-- The `operations.format` block of applyOperationsToCommand (each field is
truthiness-tested in the source before the corresponding setter is called). -/
def applyFormatToCommand (command : FfmpegCommand) (format : FormatOperation) :
    FfmpegCommand :=
  let command :=
    if jsTruthyQ format.sampleRate then { command with audioFrequency := format.sampleRate }
    else command
  let command :=
    if jsTruthyQ format.channels then { command with audioChannels := format.channels }
    else command
  let command :=
    match format.codec with
    | some c => if c ≠ "" then { command with audioCodec := some (mapCodecToFFmpeg c) } else command
    | none => command
  if jsTruthyQ format.bitrate then { command with audioBitrateK := format.bitrate }
  else command

/-- The `operations.effects` block of applyOperationsToCommand.  The source
collects fade directives in a local `filters` array, sets trim as command-level
seek/duration, flushes the array to the command when nonempty, and only then
pushes the `aloop` directive onto the local array; that final push happens after
the array contents were copied to the command, so it never reaches the command
(when no fade is present the array is not flushed at all).  The dead push is
kept here as the unused binding `filtersAfterLoopPush`. -/
def applyEffectsToCommand (command : FfmpegCommand) (effects : EffectsOperation) :
    FfmpegCommand :=
  let filters : List FilterDirective := []
  let filters :=
    match effects.fadeIn with
    | some d => filters ++ [.afadeIn 0 d]
    | none => filters
  let filters :=
    match effects.fadeOut with
    | some st => filters ++ [.afadeOut st 1]
    | none => filters
  let command :=
    match effects.trim with
    | some t =>
      let command := { command with seekInput := some t.start }
      if t.stop > t.start then { command with durationCap := some (t.stop - t.start) }
      else command
    | none => command
  let command :=
    if filters.length > 0 then
      { command with audioFilters := command.audioFilters ++ filters }
    else command
  let filtersAfterLoopPush : List FilterDirective :=
    match effects.loop with
    | some l => if l.enabled ∧ 1 < l.count then filters ++ [.aloop (l.count - 1)] else filters
    | none => filters
  let _ := filtersAfterLoopPush
  command

/-- BaseAudioProcessor.applyOperationsToCommand: volume block, then format
block, then effects block. -/
def applyOperationsToCommand (command : FfmpegCommand) (operations : AudioOperations) :
    FfmpegCommand :=
  let command :=
    match operations.volume with
    | some volume => applyVolumeToCommand command volume
    | none => command
  let command :=
    match operations.format with
    | some format => applyFormatToCommand command format
    | none => command
  match operations.effects with
  | some effects => applyEffectsToCommand command effects
  | none => command

/-- The filter list the base compiler produces for one operation set on a fresh
command. -/
def compiledFilters (operations : AudioOperations) : List FilterDirective :=
  (applyOperationsToCommand (createFFmpegCommand "input.wav") operations).audioFilters

/-! ## Spectral sub-compiler (AdvancedAudioProcessor.buildSpectralFilter) -/

/-- One band of the combined spectral filter expression: `bass=g=⟨g⟩`,
`treble=g=⟨g⟩` or `equalizer=f=⟨f⟩:width=⟨w⟩:g=⟨g⟩`. -/
inductive EqBand where
  | bass (g : ℚ)
  | treble (g : ℚ)
  | equalizer (f w g : ℚ)
  deriving DecidableEq

/-- buildSpectralFilter collects the present bands in source order (bass,
treble, midCut, warmth, brightness); each field is presence-tested with
`!== undefined`.  The source joins the bands with commas into one filter
expression; the list here is that comma-separated sequence. -/
def buildSpectralFilter (spectral : SpectralOperation) : List EqBand :=
  let eqBands : List EqBand := []
  let eqBands :=
    match spectral.bassBoost with
    | some g => eqBands ++ [.bass g]
    | none => eqBands
  let eqBands :=
    match spectral.trebleBoost with
    | some g => eqBands ++ [.treble g]
    | none => eqBands
  let eqBands :=
    match spectral.midCut with
    | some m => eqBands ++ [.equalizer 1000 500 (-|m|)]
    | none => eqBands
  let eqBands :=
    match spectral.warmth with
    | some w => eqBands ++ [.equalizer 200 100 (w * 3)]
    | none => eqBands
  match spectral.brightness with
  | some b => eqBands ++ [.equalizer 8000 2000 (b * 4)]
  | none => eqBands

/-! ## Pitch sub-compiler (AdvancedAudioProcessor.buildPitchFilter) -/

/-- Elements of the comma-separated pitch filter chain: `asetrate=44100*⟨r⟩`
(the source interpolates the product's factors, which the engine multiplies),
`aresample=⟨rate⟩` and `atempo=⟨factor⟩`. -/
inductive APitchFilter where
  | asetrate (rate : ℝ)
  | aresample (rate : ℕ)
  | atempo (factor : ℝ)

/-- Total pitch shift in cents: `(pitch.semitones * 100) + (pitch.cents || 0)`. -/
def pitchTotalCents (pitch : PitchOperation) : ℚ :=
  pitch.semitones * 100 + jsOrQ pitch.cents 0

/-- The resampling ratio `Math.pow(2, totalCents / 1200)`. -/
noncomputable def pitchRatio (totalCents : ℚ) : ℝ :=
  (2 : ℝ) ^ ((totalCents : ℝ) / 1200)

/-- buildPitchFilter: the rate-resample pair, followed by the
tempo-compensation directive `atempo=1/ratio` exactly when
`preserveFormants` is set. -/
noncomputable def buildPitchFilter (pitch : PitchOperation) : List APitchFilter :=
  let totalCents := pitchTotalCents pitch
  let ratio := pitchRatio totalCents
  if pitch.preserveFormants then
    [.asetrate (44100 * ratio), .aresample 44100, .atempo (1 / ratio)]
  else
    [.asetrate (44100 * ratio), .aresample 44100]

/-! ## Layering sub-compiler (AdvancedAudioProcessor.buildLayeringFilter) -/

/-- One per-layer processing step of a layer chain, in the order the source
appends them.  `pitchResample s` stands for the pair
`asetrate=44100*2^(s/12),aresample=44100`; `panMix` records the four channel
mix coefficients interpolated into the `pan=stereo|...` directive. -/
inductive LayerStep where
  | adelay (ms : ℚ)
  | pitchResample (semitones : ℚ)
  | volumeScale (v : ℚ)
  | panMix (c00 c01 c11 c10 : ℚ)
  deriving DecidableEq

/-- The numeric rate multiplier the `pitchResample` step interpolates:
`Math.pow(2, semitones / 12)`. -/
noncomputable def layerPitchRatio (semitones : ℚ) : ℝ :=
  (2 : ℝ) ^ ((semitones : ℝ) / 12)

/-- One processed chain `[i:a]...[processed i]` of the layering graph. -/
structure LayerChain where
  inputIndex : ℕ
  steps : List LayerStep
  outLabel : ℕ
  deriving DecidableEq

/-- The final `amix` directive: the `[processed ⟨l⟩]` labels it consumes, its
`inputs=` parameter, `duration=longest` and `dropout_transition=⟨q⟩`. -/
structure MixDirective where
  inputLabels : List ℕ
  inputsParam : ℕ
  durationLongest : Bool
  dropoutTransition : ℚ
  deriving DecidableEq

structure LayeringGraph where
  chains : List LayerChain
  mix : MixDirective
  deriving DecidableEq

/-- Per-layer chain construction: delay and pitch are truthiness-tested,
volume and pan are presence-tested, in source order; the chain ends in the
`[processed i]` label. -/
def buildLayerChain (i : ℕ) (layer : Layer) : LayerChain :=
  let steps : List LayerStep := []
  let steps :=
    match layer.delay with
    | some d => if d ≠ 0 then steps ++ [.adelay d] else steps
    | none => steps
  let steps :=
    match layer.pitch with
    | some s => if s ≠ 0 then steps ++ [.pitchResample s] else steps
    | none => steps
  let steps :=
    match layer.volume with
    | some v => steps ++ [.volumeScale v]
    | none => steps
  let steps :=
    match layer.pan with
    | some p =>
      steps ++ [.panMix (1 - |min 0 p|) (max 0 (-p)) (1 - |max 0 p|) (max 0 p)]
    | none => steps
  { inputIndex := i, steps := steps, outLabel := i }

/-- The `layers.forEach((layer, i) => ...)` loop: a chain is emitted only for
indices below the input-file count. -/
def buildChains (inputCount : ℕ) : ℕ → List Layer → List LayerChain
  | _, [] => []
  | i, layer :: rest =>
    if i < inputCount then buildLayerChain i layer :: buildChains inputCount (i + 1) rest
    else buildChains inputCount (i + 1) rest

/-- buildLayeringFilter: the per-layer chains followed by the mix-down
directive `[processed0][processed1]...amix=inputs=⟨layers.length⟩:duration=longest:dropout_transition=2[final]`,
whose input labels enumerate every layer index. -/
def buildLayeringFilter (inputFiles : List String) (layering : LayeringOperation) :
    LayeringGraph :=
  let layers := layering.layers
  { chains := buildChains inputFiles.length 0 layers
    mix :=
      { inputLabels := List.range layers.length
        inputsParam := layers.length
        durationLongest := true
        dropoutTransition := 2 } }

/-! ## Variation generator (AdvancedAudioProcessor.generateVariations,
    generateRandomVariation, createSeededRandom) -/

/-- One step of the linear congruential generator:
`state = (state * 1664525 + 1013904223) % 0x100000000`. -/
def lcgNext (state : ℤ) : ℤ :=
  jsMod (state * 1664525 + 1013904223) 4294967296

/-- The value the closure returns after advancing: `state / 0x100000000`. -/
def rngValue (state : ℤ) : ℚ :=
  (state : ℚ) / 4294967296

/-- The perturbation values drawn for one variation: the random pitch shift in
semitones, the bass and treble shifts in dB, and the tempo factor. -/
structure RandomVariation where
  pitchSemitones : Option ℚ := none
  bassBoost : Option ℚ := none
  trebleBoost : Option ℚ := none
  tempoFactor : Option ℚ := none
  deriving DecidableEq

/-- generateRandomVariation: one call consumes one draw for a truthy
`pitchRange`, two draws for a truthy `spectralRange` (bass then treble) and one
draw for a truthy `timingRange`; `volumeRange` is never read.  Returns the
drawn perturbations together with the advanced generator state. -/
def generateRandomVariation (variations : VariationOperation) (state : ℤ) :
    RandomVariation × ℤ :=
  let step1 : Option ℚ × ℤ :=
    match variations.pitchRange with
    | some r =>
      if r ≠ 0 then
        let state := lcgNext state
        (some ((rngValue state - 1/2) * 2 * r), state)
      else (none, state)
    | none => (none, state)
  let pitchSemitones := step1.1
  let state := step1.2
  let step2 : Option ℚ × Option ℚ × ℤ :=
    match variations.spectralRange with
    | some r =>
      if r ≠ 0 then
        let s1 := lcgNext state
        let s2 := lcgNext s1
        (some ((rngValue s1 - 1/2) * 2 * r), some ((rngValue s2 - 1/2) * 2 * r), s2)
      else (none, none, state)
    | none => (none, none, state)
  let bassBoost := step2.1
  let trebleBoost := step2.2.1
  let state := step2.2.2
  let step3 : Option ℚ × ℤ :=
    match variations.timingRange with
    | some r =>
      if r ≠ 0 then
        let state := lcgNext state
        (some (1 + (rngValue state - 1/2) * (2/10)), state)
      else (none, state)
    | none => (none, state)
  let tempoFactor := step3.1
  let state := step3.2
  ({ pitchSemitones := pitchSemitones, bassBoost := bassBoost,
     trebleBoost := trebleBoost, tempoFactor := tempoFactor }, state)

/-- The `for (let i = 0; i < variations.count; i++)` loop, threading the
generator state and collecting the perturbations of each iteration. -/
def variationDraws (variations : VariationOperation) :
    ℕ → ℤ → List RandomVariation
  | 0, _ => []
  | n + 1, state =>
    let step := generateRandomVariation variations state
    step.1 :: variationDraws variations n step.2

/-- Seed selection in generateVariations:
`variations.seed || Math.floor(Math.random() * 1000000)` — an absent seed and
an explicit seed of `0` both fall back to the ambient `Math.random()` draw. -/
def effectiveSeed (variations : VariationOperation) (ambient : ℤ) : ℤ :=
  match variations.seed with
  | some s => if s ≠ 0 then s else ambient
  | none => ambient

/-- The full sequence of perturbation values generateVariations derives across
its `count` iterations, as a function of the ambient `Math.random()` draw. -/
def variationStream (variations : VariationOperation) (ambient : ℤ) :
    List RandomVariation :=
  variationDraws variations variations.count (effectiveSeed variations ambient)

/-! ## Job runner and batch scheduler
    (BaseAudioProcessor.processAudioFile / batchProcessAudio) -/

/-- Environment supplying the outcomes of the external collaborators of the
core (utils/ffmpeg.ts and the engine), the glob result used for discovery, the
derived batch output path (generateBatchOutputPath is pure path-string
manipulation over the node path library, not claim-relevant), and the wall
clock values returned by the `Date.now()` reads. -/
structure FsEnv where
  validateInput : String → Except String Unit
  ensureOutputDir : String → Except String Unit
  handleExisting : String → Bool → Except String Unit
  engineExecute : FfmpegCommand → String → Except String Unit
  outPath : ProcessingInput → ProcessingOutput → String → String
  globFiles : List String
  timeAtStart : ℤ
  timeAtResult : ℤ
  batchStart : ℤ
  batchEnd : ℤ

/-- The sequence of awaited steps in processAudioFile, each of which may throw:
validate input, prepare the output directory, apply the overwrite policy,
compile the command (pure, cannot throw) and run the engine. -/
def jobSteps (env : FsEnv) (inputFile outputFile : String)
    (operations : AudioOperations) (overwrite : Bool) : Except String FfmpegCommand := do
  env.validateInput inputFile
  env.ensureOutputDir outputFile
  env.handleExisting outputFile overwrite
  let command := applyOperationsToCommand (createFFmpegCommand inputFile) operations
  env.engineExecute command outputFile
  pure command

/-- BaseAudioProcessor.processAudioFile: the whole step sequence runs inside a
try/catch, so exactly one ProcessingResult is returned on every path and no
exception escapes; both the success and the failure branch echo the operation
set and measure the wall-clock time between the two `Date.now()` reads. -/
def processAudioFile (env : FsEnv) (inputFile outputFile : String)
    (operations : AudioOperations) (overwrite : Bool) : ProcessingResult :=
  let startTime := env.timeAtStart
  match jobSteps env inputFile outputFile operations overwrite with
  | .ok _ =>
    { success := true
      inputFile := inputFile
      outputFile := outputFile
      processingTime := env.timeAtResult - startTime
      operations := operations
      error := none }
  | .error msg =>
    { success := false
      inputFile := inputFile
      outputFile := outputFile
      processingTime := env.timeAtResult - startTime
      operations := operations
      error := some msg }

/-- BaseAudioProcessor.findInputFiles: an explicit file wins, otherwise the
directory pattern is globbed, otherwise the call throws. -/
def findInputFiles (env : FsEnv) (input : ProcessingInput) : Except String (List String) :=
  match input.file with
  | some f => .ok [f]
  | none =>
    match input.directory with
    | some _ => .ok env.globFiles
    | none => .error "No valid input specification provided"

/-- BaseAudioProcessor.batchProcessAudio: discovery, hard failure on an empty
file list, one job per file submitted through the queue and awaited with
`Promise.all` (which yields the results in submission order, not completion
order), then aggregation.  Any thrown error is rethrown wrapped in the
batch-failure message. -/
def batchProcessAudio (env : FsEnv) (input : ProcessingInput) (output : ProcessingOutput)
    (operations : AudioOperations) (overwrite : Bool) :
    Except String BatchProcessingResult :=
  match findInputFiles env input with
  | .error msg => .error ("Batch processing failed: " ++ msg)
  | .ok inputFiles =>
    if inputFiles.length = 0 then
      .error "Batch processing failed: No audio files found matching the criteria"
    else
      let results := inputFiles.map fun inputFile =>
        processAudioFile env inputFile (env.outPath input output inputFile) operations overwrite
      let successfulFiles := (results.filter fun r => r.success).length
      let failedFiles := results.length - successfulFiles
      .ok { totalFiles := results.length
            successfulFiles := successfulFiles
            failedFiles := failedFiles
            results := results
            totalProcessingTime := env.batchEnd - env.batchStart }

/-! ## Derived descriptions and predicates used by the statements -/

/-- The filter directives the volume block contributes, as one list. -/
def volumeFilterList : Option VolumeOperation → List FilterDirective
  | none => []
  | some v =>
    (match v.adjust with
     | some a => [.volume a]
     | none => []) ++
    (if v.normalize then [.loudnorm (jsOrQ v.targetLUFS (-23)) 7 (-2)] else [])

/-- The filter directives the effects block contributes, as one list. -/
def fadeFilterList : Option EffectsOperation → List FilterDirective
  | none => []
  | some e =>
    (match e.fadeIn with
     | some d => [.afadeIn 0 d]
     | none => []) ++
    (match e.fadeOut with
     | some st => [.afadeOut st 1]
     | none => [])

/-- Whether a directive is a loop directive. -/
def isAloop : FilterDirective → Bool
  | .aloop _ => true
  | _ => false

/-- The loudness-normalization target a directive carries, when it is one. -/
def loudnormTargetOf : FilterDirective → Option ℚ
  | .loudnorm t _ _ => some t
  | _ => none

/-! ## Concrete inputs used by the witnesses and counterexamples -/

/-- An operation set requesting only a loop of three plays. -/
def loopOpsEx : AudioOperations :=
  { effects := some { loop := some { enabled := true, count := 3 } } }

/-- An operation set requesting a 3-second fade-in and a fade-out from 7s. -/
def fadeOpsEx : AudioOperations :=
  { effects := some { fadeIn := some 3, fadeOut := some 7 } }

/-- An operation set requesting normalization with an explicit 0-LUFS target. -/
def normOpsEx : AudioOperations :=
  { volume := some { normalize := true, targetLUFS := some 0 } }

/-- A variation request with an explicit nonzero seed. -/
def variationOpsEx : VariationOperation :=
  { count := 3, pitchRange := some 2, spectralRange := some 2,
    timingRange := some 1, seed := some 42 }

/-- A variation request with the explicit (but falsy) seed `0`. -/
def variationOpsSeedZero : VariationOperation :=
  { count := 1, pitchRange := some 1, seed := some 0 }

/-- A layering request with more layers than input files. -/
def twoLayersEx : LayeringOperation := { layers := [{}, {}] }

/-- A pitch operation of one octave up with no fine-tuning. -/
def pitchOpsEx : PitchOperation := { semitones := 12, cents := some 0 }

/-- An environment whose input validation always fails. -/
def envFailEx : FsEnv :=
  { validateInput := fun _ => .error "Input file not found"
    ensureOutputDir := fun _ => .ok ()
    handleExisting := fun _ _ => .ok ()
    engineExecute := fun _ _ => .ok ()
    outPath := fun _ _ f => f
    globFiles := []
    timeAtStart := 0, timeAtResult := 0, batchStart := 0, batchEnd := 0 }

/-- An environment that discovers three files, the second of which fails input
validation; every other step succeeds. -/
def batchEnvEx : FsEnv :=
  { validateInput := fun f => if f = "b.wav" then .error "Input file not found" else .ok ()
    ensureOutputDir := fun _ => .ok ()
    handleExisting := fun _ _ => .ok ()
    engineExecute := fun _ _ => .ok ()
    outPath := fun _ _ f => f
    globFiles := ["a.wav", "b.wav", "c.wav"]
    timeAtStart := 0, timeAtResult := 0, batchStart := 0, batchEnd := 0 }

/-- An environment whose directory glob matches nothing. -/
def emptyGlobEnvEx : FsEnv :=
  { validateInput := fun _ => .ok ()
    ensureOutputDir := fun _ => .ok ()
    handleExisting := fun _ _ => .ok ()
    engineExecute := fun _ _ => .ok ()
    outPath := fun _ _ f => f
    globFiles := []
    timeAtStart := 0, timeAtResult := 0, batchStart := 0, batchEnd := 0 }

/-- A directory-shaped batch input specification. -/
def dirInputEx : ProcessingInput := { directory := some "sounds" }

/-- The batch result batchEnvEx produces over its three discovered files. -/
def batchResEx : BatchProcessingResult :=
  { totalFiles := 3, successfulFiles := 2, failedFiles := 1
    results :=
      [ { success := true, inputFile := "a.wav", outputFile := "a.wav",
          processingTime := 0, operations := {}, error := none },
        { success := false, inputFile := "b.wav", outputFile := "b.wav",
          processingTime := 0, operations := {}, error := some "Input file not found" },
        { success := true, inputFile := "c.wav", outputFile := "c.wav",
          processingTime := 0, operations := {}, error := none } ]
    totalProcessingTime := 0 }

/-! ## Decomposition of the base compiler's filter output -/

theorem applyVolumeToCommand_audioFilters (cmd : FfmpegCommand) (v : VolumeOperation) :
    (applyVolumeToCommand cmd v).audioFilters =
      cmd.audioFilters ++ volumeFilterList (some v) := by
  cases ha : v.adjust <;> cases hn : v.normalize <;>
    simp [applyVolumeToCommand, volumeFilterList, ha, hn]

theorem applyFormatToCommand_audioFilters (cmd : FfmpegCommand) (f : FormatOperation) :
    (applyFormatToCommand cmd f).audioFilters = cmd.audioFilters := by
  cases hc : f.codec <;> simp [applyFormatToCommand, hc] <;> split_ifs <;> rfl

theorem applyEffectsToCommand_audioFilters (cmd : FfmpegCommand) (e : EffectsOperation) :
    (applyEffectsToCommand cmd e).audioFilters =
      cmd.audioFilters ++ fadeFilterList (some e) := by
  cases hi : e.fadeIn <;> cases ho : e.fadeOut <;> cases ht : e.trim <;>
      cases hl : e.loop <;>
    simp [applyEffectsToCommand, fadeFilterList, hi, ho, ht, hl] <;>
    split_ifs <;> rfl

theorem applyOperationsToCommand_audioFilters (cmd : FfmpegCommand)
    (ops : AudioOperations) :
    (applyOperationsToCommand cmd ops).audioFilters =
      cmd.audioFilters ++ volumeFilterList ops.volume ++ fadeFilterList ops.effects := by
  cases hv : ops.volume <;> cases hf : ops.format <;> cases he : ops.effects <;>
    simp [applyOperationsToCommand, hv, hf, he,
      applyVolumeToCommand_audioFilters, applyFormatToCommand_audioFilters,
      applyEffectsToCommand_audioFilters, volumeFilterList, fadeFilterList]

theorem compiledFilters_eq (ops : AudioOperations) :
    compiledFilters ops = volumeFilterList ops.volume ++ fadeFilterList ops.effects := by
  rw [compiledFilters, applyOperationsToCommand_audioFilters]
  simp [createFFmpegCommand]

theorem countP_isAloop_volumeFilterList (v : Option VolumeOperation) :
    (volumeFilterList v).countP isAloop = 0 := by
  match v with
  | none => rfl
  | some v =>
    cases ha : v.adjust <;> cases hn : v.normalize <;>
      simp [volumeFilterList, ha, hn, isAloop, List.countP_cons]

theorem countP_isAloop_fadeFilterList (e : Option EffectsOperation) :
    (fadeFilterList e).countP isAloop = 0 := by
  match e with
  | none => rfl
  | some e =>
    cases hi : e.fadeIn <;> cases ho : e.fadeOut <;>
      simp [fadeFilterList, hi, ho, isAloop, List.countP_cons]

theorem mem_fadeFilterList_iff (e : EffectsOperation) (f : FilterDirective) :
    f ∈ fadeFilterList (some e) ↔
      (∃ d, e.fadeIn = some d ∧ f = .afadeIn 0 d) ∨
      (∃ st, e.fadeOut = some st ∧ f = .afadeOut st 1) := by
  cases hi : e.fadeIn <;> cases ho : e.fadeOut <;>
    simp [fadeFilterList, hi, ho]

theorem afade_not_mem_volumeFilterList (v : Option VolumeOperation)
    (s d : ℚ) :
    FilterDirective.afadeIn s d ∉ volumeFilterList v ∧
    FilterDirective.afadeOut s d ∉ volumeFilterList v := by
  match v with
  | none => simp [volumeFilterList]
  | some v =>
    cases ha : v.adjust <;> cases hn : v.normalize <;>
      simp [volumeFilterList, ha, hn]

theorem filterMap_loudnorm_fadeFilterList (e : Option EffectsOperation) :
    (fadeFilterList e).filterMap loudnormTargetOf = [] := by
  match e with
  | none => rfl
  | some e =>
    cases hi : e.fadeIn <;> cases ho : e.fadeOut <;>
      simp [fadeFilterList, hi, ho, loudnormTargetOf]

/-! ## Claim theorems -/

/-- Claim C2 (code_bug evidence): for the operation set
`effects.loop = \x7benabled: true, count: 3\x7d` the compiled command's filter
list is empty — no loop directive with repeat parameter 2 (or any other) is
present — and, in general, applying any operation set to any command never
adds a loop directive: the source pushes the `aloop` string onto its local
filter array only after that array's contents have been handed to the command. -/
theorem loop_directive_never_reaches_command :
    compiledFilters loopOpsEx = [] ∧
    ∀ (cmd : FfmpegCommand) (ops : AudioOperations),
      ((applyOperationsToCommand cmd ops).audioFilters).countP isAloop =
        cmd.audioFilters.countP isAloop := by
  constructor
  · rfl
  · intro cmd ops
    rw [applyOperationsToCommand_audioFilters]
    simp [List.countP_append, countP_isAloop_volumeFilterList,
      countP_isAloop_fadeFilterList]

/-- Claim C8: the compiled fade-in directive uses absolute start offset 0 and
the requested value as its duration; the compiled fade-out directive uses the
requested value as its start time with the fade length pinned to 1; every
fade directive the compiler emits has exactly this shape, so the fade-out
length is never derived from the requested value or the input's duration. -/
theorem fade_directive_parameters (ops : AudioOperations) (e : EffectsOperation)
    (h : ops.effects = some e) :
    (∀ d, e.fadeIn = some d → FilterDirective.afadeIn 0 d ∈ compiledFilters ops) ∧
    (∀ st, e.fadeOut = some st → FilterDirective.afadeOut st 1 ∈ compiledFilters ops) ∧
    (∀ s d, FilterDirective.afadeIn s d ∈ compiledFilters ops →
      s = 0 ∧ e.fadeIn = some d) ∧
    (∀ s d, FilterDirective.afadeOut s d ∈ compiledFilters ops →
      d = 1 ∧ e.fadeOut = some s) := by
  rw [compiledFilters_eq, h]
  refine ⟨fun d hd => ?_, fun st hst => ?_, fun s d hm => ?_, fun s d hm => ?_⟩
  · exact List.mem_append_right _ ((mem_fadeFilterList_iff e _).mpr (.inl ⟨d, hd, rfl⟩))
  · exact List.mem_append_right _ ((mem_fadeFilterList_iff e _).mpr (.inr ⟨st, hst, rfl⟩))
  · rcases List.mem_append.mp hm with hv | hf
    · exact absurd hv (afade_not_mem_volumeFilterList _ s d).1
    · rcases (mem_fadeFilterList_iff e _).mp hf with ⟨d2, hd2, heq⟩ | ⟨st2, _, heq⟩
      · cases heq; exact ⟨rfl, hd2⟩
      · cases heq
  · rcases List.mem_append.mp hm with hv | hf
    · exact absurd hv (afade_not_mem_volumeFilterList _ s d).2
    · rcases (mem_fadeFilterList_iff e _).mp hf with ⟨d2, _, heq⟩ | ⟨st2, hst2, heq⟩
      · cases heq
      · cases heq; exact ⟨rfl, hst2⟩

/-- Witness for C8 at a concrete operation set: the fade-in directive starts at
0 with the requested 3-second duration and the fade-out directive starts at
the requested 7 seconds with length 1. -/
theorem fade_directive_parameters_witness :
    FilterDirective.afadeIn 0 3 ∈ compiledFilters fadeOpsEx ∧
    FilterDirective.afadeOut 7 1 ∈ compiledFilters fadeOpsEx :=
  ⟨(fade_directive_parameters fadeOpsEx _ rfl).1 3 rfl,
   (fade_directive_parameters fadeOpsEx _ rfl).2.1 7 rfl⟩

/-- Claim C9: with `normalize` requested, the single emitted
loudness-normalization directive targets `targetLUFS || -23`: an absent or
zero target falls back to -23 LUFS, a nonzero target passes through, and the
emitted target can never be 0. -/
theorem loudnorm_target_defaulting (ops : AudioOperations) (v : VolumeOperation)
    (hv : ops.volume = some v) (hn : v.normalize = true) :
    (compiledFilters ops).filterMap loudnormTargetOf = [jsOrQ v.targetLUFS (-23)] ∧
    ((v.targetLUFS = none ∨ v.targetLUFS = some 0) →
      (compiledFilters ops).filterMap loudnormTargetOf = [(-23 : ℚ)]) ∧
    (∀ t, v.targetLUFS = some t → t ≠ 0 →
      (compiledFilters ops).filterMap loudnormTargetOf = [t]) ∧
    (∀ t l p, FilterDirective.loudnorm t l p ∈ compiledFilters ops → t ≠ 0) := by
  have hmain : (compiledFilters ops).filterMap loudnormTargetOf =
      [jsOrQ v.targetLUFS (-23)] := by
    rw [compiledFilters_eq, hv, List.filterMap_append, filterMap_loudnorm_fadeFilterList]
    cases ha : v.adjust <;> simp [volumeFilterList, ha, hn, loudnormTargetOf]
  have hne : jsOrQ v.targetLUFS (-23) ≠ 0 := by
    cases ht : v.targetLUFS with
    | none => norm_num [jsOrQ]
    | some t =>
      by_cases h0 : t = 0
      · norm_num [jsOrQ, h0]
      · simp [jsOrQ, h0]
  refine ⟨hmain, fun habs => ?_, fun t ht htne => ?_, fun t l p hm => ?_⟩
  · rw [hmain]
    rcases habs with h | h <;> simp [jsOrQ, h]
  · rw [hmain]
    simp [jsOrQ, ht, htne]
  · have hmem : t ∈ (compiledFilters ops).filterMap loudnormTargetOf :=
      List.mem_filterMap.mpr ⟨_, hm, rfl⟩
    rw [hmain] at hmem
    simp at hmem
    rw [hmem]
    exact hne

/-- Witness for C9 at a concrete operation set: an explicit `targetLUFS = 0`
still yields the -23 LUFS default. -/
theorem loudnorm_target_defaulting_witness :
    (compiledFilters normOpsEx).filterMap loudnormTargetOf = [(-23 : ℚ)] :=
  (loudnorm_target_defaulting normOpsEx _ rfl rfl).2.1 (Or.inr rfl)

/-- Claim C4: for every input/output path, operation set, overwrite flag and
every combination of step outcomes, the job runner returns exactly one
ProcessingResult (it is a total function into ProcessingResult, so no
exception escapes): `success` is true exactly when every step succeeded, a
failed run carries the failing step's message, every failure carries some
error message, the operation set is echoed, and the processing time is the
span between the two wall-clock reads (job acceptance to terminal state). -/
theorem job_runner_always_returns_result (env : FsEnv) (inF outF : String)
    (ops : AudioOperations) (ow : Bool) :
    (processAudioFile env inF outF ops ow).operations = ops ∧
    (processAudioFile env inF outF ops ow).inputFile = inF ∧
    (processAudioFile env inF outF ops ow).outputFile = outF ∧
    (processAudioFile env inF outF ops ow).processingTime =
      env.timeAtResult - env.timeAtStart ∧
    ((processAudioFile env inF outF ops ow).success = true ↔
      ∃ c, jobSteps env inF outF ops ow = .ok c) ∧
    (∀ msg, jobSteps env inF outF ops ow = .error msg →
      (processAudioFile env inF outF ops ow).success = false ∧
      (processAudioFile env inF outF ops ow).error = some msg) ∧
    ((processAudioFile env inF outF ops ow).success = false →
      ∃ msg, (processAudioFile env inF outF ops ow).error = some msg) := by
  cases h : jobSteps env inF outF ops ow <;>
    simp [processAudioFile, h]

/-- Witness for C4 at a concrete failing environment: the validation error is
normalized into a failed result that still echoes the operation set. -/
theorem job_runner_always_returns_result_witness :
    (processAudioFile envFailEx "in.wav" "out.wav" fadeOpsEx false).success = false ∧
    (processAudioFile envFailEx "in.wav" "out.wav" fadeOpsEx false).error =
      some "Input file not found" ∧
    (processAudioFile envFailEx "in.wav" "out.wav" fadeOpsEx false).operations =
      fadeOpsEx := by
  have h := job_runner_always_returns_result envFailEx "in.wav" "out.wav" fadeOpsEx false
  have hfail := h.2.2.2.2.2.1 "Input file not found" rfl
  exact ⟨hfail.1, hfail.2, h.1⟩

/-- Claim C5: a batch request whose source specification resolves to an empty
file list fails as a whole with the no-files-found error, and no batch call
whatsoever can return a BatchResult with `totalFiles = 0`. -/
theorem batch_empty_discovery_fails (env : FsEnv) (input : ProcessingInput)
    (output : ProcessingOutput) (ops : AudioOperations) (ow : Bool)
    (h : findInputFiles env input = .ok []) :
    batchProcessAudio env input output ops ow =
      .error "Batch processing failed: No audio files found matching the criteria" ∧
    ∀ (env2 : FsEnv) (input2 : ProcessingInput) (output2 : ProcessingOutput)
      (ops2 : AudioOperations) (ow2 : Bool) (res : BatchProcessingResult),
      batchProcessAudio env2 input2 output2 ops2 ow2 = .ok res → 0 < res.totalFiles := by
  constructor
  · rw [batchProcessAudio, h]
    simp
  · intro env2 input2 output2 ops2 ow2 res hr
    rw [batchProcessAudio] at hr
    cases hf : findInputFiles env2 input2 with
    | error msg => rw [hf] at hr; cases hr
    | ok files =>
      rw [hf] at hr
      by_cases hlen : files.length = 0
      · simp [hlen] at hr
      · simp [hlen] at hr
        subst hr
        simp only [List.length_map]
        omega

/-- Witness for C5 at a concrete environment whose glob matches nothing. -/
theorem batch_empty_discovery_fails_witness :
    batchProcessAudio emptyGlobEnvEx dirInputEx {} {} false =
      .error "Batch processing failed: No audio files found matching the criteria" :=
  (batch_empty_discovery_fails emptyGlobEnvEx dirInputEx {} {} false rfl).1

/-- Claim C6: a batch over a non-empty discovered file list returns a
BatchResult whose totalFiles is the number of discovered files, whose results
list has exactly one entry per discovered file in discovery order (entry i is
the job result of file i), whose successfulFiles counts the successful
results, and whose counters partition: totalFiles = successfulFiles +
failedFiles. -/
theorem batch_result_aggregation (env : FsEnv) (input : ProcessingInput)
    (output : ProcessingOutput) (ops : AudioOperations) (ow : Bool)
    (files : List String) (res : BatchProcessingResult)
    (hf : findInputFiles env input = .ok files)
    (hr : batchProcessAudio env input output ops ow = .ok res) :
    res.totalFiles = files.length ∧
    res.results = files.map
      (fun f => processAudioFile env f (env.outPath input output f) ops ow) ∧
    res.totalFiles = res.results.length ∧
    res.successfulFiles = (res.results.filter fun r => r.success).length ∧
    res.totalFiles = res.successfulFiles + res.failedFiles := by
  rw [batchProcessAudio, hf] at hr
  by_cases hlen : files.length = 0
  · simp [hlen] at hr
  · simp [hlen] at hr
    subst hr
    refine ⟨by simp, rfl, by simp, rfl, ?_⟩
    have hle : ((files.map fun f =>
        processAudioFile env f (env.outPath input output f) ops ow).filter
          fun r => r.success).length ≤
        (files.map fun f =>
          processAudioFile env f (env.outPath input output f) ops ow).length :=
      List.length_filter_le _ _
    simp only [List.length_map] at hle ⊢
    omega

/-- Witness for C6 at a concrete three-file batch whose second file fails:
totalFiles is 3 and the counters partition as 3 = 2 + 1. -/
theorem batch_result_aggregation_witness :
    batchResEx.totalFiles = 3 ∧
    batchResEx.totalFiles = batchResEx.successfulFiles + batchResEx.failedFiles := by
  have h := batch_result_aggregation batchEnvEx dirInputEx {} {} false
    ["a.wav", "b.wav", "c.wav"] batchResEx rfl rfl
  exact ⟨h.1, h.2.2.2.2⟩

/-- Claim C1 (amended): for every VariationOperation whose explicit seed is
nonzero and fixed count/pitchRange/volumeRange/spectralRange/timingRange, the
sequence of perturbation values across all count iterations is fully
determined by the operation (in particular by the seed): it does not depend on
the ambient `Math.random()` draw, so two runs produce identical sequences.
The amendment is forced because an explicit seed of 0 is falsy in the
`variations.seed || Math.floor(Math.random() * 1000000)` fallback and the
stream then depends on the ambient draw. -/
theorem variation_stream_determined_by_seed (v : VariationOperation) (s : ℤ)
    (hs : v.seed = some s) (hnz : s ≠ 0) (a1 a2 : ℤ) :
    variationStream v a1 = variationStream v a2 := by
  unfold variationStream effectiveSeed
  rw [hs]
  simp [hnz]

/-- Witness for amended C1: with the explicit seed 42, the perturbation
sequence is the same no matter which ambient draw each run would have used. -/
theorem variation_stream_determined_by_seed_witness :
    variationStream variationOpsEx 5 = variationStream variationOpsEx 911 :=
  variation_stream_determined_by_seed variationOpsEx 42 rfl (by decide) 5 911

/-- Counterexample to C1 as stated: the VariationOperation with the explicit
seed 0 (and count 1, pitchRange 1) yields different perturbation sequences for
different ambient `Math.random()` draws, so its stream is not determined by
the seed. -/
theorem variation_stream_seed_zero_ambient_dependent :
    variationStream variationOpsSeedZero 1 ≠ variationStream variationOpsSeedZero 2 := by
  simp only [variationStream, variationOpsSeedZero, effectiveSeed, variationDraws,
    generateRandomVariation]
  norm_num [lcgNext, rngValue, jsMod]

theorem mem_buildChains (n : ℕ) (k : ℕ) (layers : List Layer) (c : LayerChain)
    (hc : c ∈ buildChains n k layers) :
    c.inputIndex < n ∧ c.outLabel = c.inputIndex := by
  induction layers generalizing k with
  | nil => simp [buildChains] at hc
  | cons layer rest ih =>
    rw [buildChains] at hc
    by_cases h : k < n
    · simp [h] at hc
      rcases hc with hc | hc
      · subst hc
        exact ⟨h, rfl⟩
      · exact ih (k + 1) hc
    · simp [h] at hc
      exact ih (k + 1) hc

theorem buildChains_map_outLabel (n : ℕ) (k : ℕ) (layers : List Layer) :
    (buildChains n k layers).map (fun c => c.outLabel) =
      (List.range' k layers.length).filter fun i => decide (i < n) := by
  induction layers generalizing k with
  | nil => simp [buildChains]
  | cons layer rest ih =>
    rw [buildChains, List.length_cons, List.range'_succ]
    by_cases h : k < n
    · simp [h, List.filter_cons, ih, buildLayerChain]
    · simp [h, List.filter_cons, ih]

/-- Claim C3 (amended): the layering compiler builds per-layer processing
chains only for layer indices below the input count (each chain reads stream
i and produces label i), and the final mix-down directive uses duration
policy longest with the fixed dropout-transition constant 2; however, the
mix-down's input list names the processed label of every layer index and its
inputs parameter is the full layer count, so every referenced label is
actually produced exactly when the layer list is no longer than the input
list — excess layers are skipped by the per-layer stage yet still referenced
by the mix-down. -/
theorem layering_graph_streams (inputFiles : List String)
    (layering : LayeringOperation) :
    (∀ c ∈ (buildLayeringFilter inputFiles layering).chains,
      c.inputIndex < inputFiles.length ∧ c.outLabel = c.inputIndex) ∧
    ((buildLayeringFilter inputFiles layering).chains.map fun c => c.outLabel) =
      (List.range layering.layers.length).filter
        (fun i => decide (i < inputFiles.length)) ∧
    (buildLayeringFilter inputFiles layering).mix.inputLabels =
      List.range layering.layers.length ∧
    (buildLayeringFilter inputFiles layering).mix.inputsParam =
      layering.layers.length ∧
    (buildLayeringFilter inputFiles layering).mix.durationLongest = true ∧
    (buildLayeringFilter inputFiles layering).mix.dropoutTransition = 2 ∧
    ((∀ l ∈ (buildLayeringFilter inputFiles layering).mix.inputLabels,
        l ∈ (buildLayeringFilter inputFiles layering).chains.map fun c => c.outLabel) ↔
      layering.layers.length ≤ inputFiles.length) := by
  refine ⟨fun c hc => mem_buildChains _ _ _ c hc, ?_, rfl, rfl, rfl, rfl, ?_⟩
  · show (buildChains inputFiles.length 0 layering.layers).map _ = _
    rw [buildChains_map_outLabel, List.range_eq_range']
  · show (∀ l ∈ List.range layering.layers.length,
        l ∈ (buildChains inputFiles.length 0 layering.layers).map fun c => c.outLabel) ↔ _
    rw [buildChains_map_outLabel, List.range_eq_range']
    constructor
    · intro hall
      by_contra hlt
      push_neg at hlt
      have hmem := hall inputFiles.length
        (List.mem_range'_1.mpr (by omega))
      rcases List.mem_filter.mp hmem with ⟨_, habs⟩
      simp at habs
    · intro hle l hl
      refine List.mem_filter.mpr ⟨hl, ?_⟩
      have hlen : l < layering.layers.length := by
        have := List.mem_range'_1.mp hl
        omega
      simp
      omega

/-- Witness for amended C3 at a concrete request with two layers over two
inputs: both processed labels exist and the mix-down parameters are the fixed
constants. -/
theorem layering_graph_streams_witness :
    ((buildLayeringFilter ["a.wav", "b.wav"] twoLayersEx).chains.map
        fun c => c.outLabel) =
      (List.range 2).filter (fun i => decide (i < 2)) ∧
    (buildLayeringFilter ["a.wav", "b.wav"] twoLayersEx).mix.durationLongest = true ∧
    (buildLayeringFilter ["a.wav", "b.wav"] twoLayersEx).mix.dropoutTransition = 2 := by
  have h := layering_graph_streams ["a.wav", "b.wav"] twoLayersEx
  exact ⟨h.2.1, h.2.2.2.2.1, h.2.2.2.2.2.1⟩

/-- Counterexample to C3 as stated: with one input file and two layers, the
mix-down references the processed label 1, but no chain produces label 1 —
the compiled graph names a stream that was never produced. -/
theorem layering_phantom_stream_reference :
    1 ∈ (buildLayeringFilter ["a.wav"] twoLayersEx).mix.inputLabels ∧
    ∀ c ∈ (buildLayeringFilter ["a.wav"] twoLayersEx).chains, c.outLabel ≠ 1 := by
  decide

/-- Claim C7: the pitch compiler computes total cents as
semitones·100 + cents (cents defaulting to 0) and the ratio 2^(totalCents/1200),
emits the rate-resample pair first, and emits a tempo-compensation directive —
of factor 1/ratio — exactly when preserveFormants is set; the ratio at 1200
total cents (semitones = 12, cents = 0) is exactly 2 and at 0 total cents
(semitones = 0, cents = 0) exactly 1. -/
theorem pitch_filter_spec (p : PitchOperation) :
    pitchTotalCents p = p.semitones * 100 + p.cents.getD 0 ∧
    (buildPitchFilter p).take 2 =
      [APitchFilter.asetrate (44100 * pitchRatio (pitchTotalCents p)),
       APitchFilter.aresample 44100] ∧
    (∀ f, APitchFilter.atempo f ∈ buildPitchFilter p ↔
      p.preserveFormants = true ∧ f = 1 / pitchRatio (pitchTotalCents p)) ∧
    pitchRatio 1200 = 2 ∧ pitchRatio 0 = 1 := by
  refine ⟨?_, ?_, fun f => ?_, ?_, ?_⟩
  · unfold pitchTotalCents jsOrQ
    cases hc : p.cents with
    | none => simp
    | some c =>
      by_cases h0 : c = 0 <;> simp [h0]
  · cases hp : p.preserveFormants <;> simp [buildPitchFilter, hp]
  · cases hp : p.preserveFormants <;> simp [buildPitchFilter, hp]
  · have h : (((1200 : ℚ) : ℝ) / 1200) = 1 := by norm_num
    rw [pitchRatio, h, Real.rpow_one]
  · have h : (((0 : ℚ) : ℝ) / 1200) = 0 := by norm_num
    rw [pitchRatio, h, Real.rpow_zero]

/-- Witness for C7 at semitones = 12, cents = 0, preserveFormants = false:
the ratio is exactly 2 and no tempo-compensation directive is emitted. -/
theorem pitch_filter_spec_witness :
    pitchRatio (pitchTotalCents pitchOpsEx) = 2 ∧
    ∀ f, APitchFilter.atempo f ∉ buildPitchFilter pitchOpsEx := by
  have h := pitch_filter_spec pitchOpsEx
  have hc : pitchTotalCents pitchOpsEx = 1200 := by
    rw [h.1]
    norm_num [pitchOpsEx]
  constructor
  · rw [hc]
    exact h.2.2.2.1
  · intro f hf
    have := ((h.2.2.1 f).mp hf).1
    simp [pitchOpsEx] at this

/-- Membership characterization of the spectral compiler's output: each band
comes from exactly one present source field, with the mid band emitted as
`equalizer=f=1000:width=500:g=-|midCut|`. -/
theorem mem_buildSpectralFilter (s : SpectralOperation) (b : EqBand) :
    b ∈ buildSpectralFilter s ↔
      (∃ g, s.bassBoost = some g ∧ b = .bass g) ∨
      (∃ g, s.trebleBoost = some g ∧ b = .treble g) ∨
      (∃ m, s.midCut = some m ∧ b = .equalizer 1000 500 (-|m|)) ∨
      (∃ w, s.warmth = some w ∧ b = .equalizer 200 100 (w * 3)) ∨
      (∃ br, s.brightness = some br ∧ b = .equalizer 8000 2000 (br * 4)) := by
  cases hb : s.bassBoost <;> cases ht : s.trebleBoost <;> cases hm : s.midCut <;>
      cases hw : s.warmth <;> cases hbr : s.brightness <;>
    simp [buildSpectralFilter, hb, ht, hm, hw, hbr]

/-- Claim C10: when midCut is present, the compiler emits the fixed mid-band
equalizer directive with gain -|midCut|, every emitted 1000/500-band gain is
non-positive (the mid band can never be boosted), and opposite-sign midCut
values of equal magnitude compile to the identical filter list. -/
theorem spectral_midcut_gain (s : SpectralOperation) (m : ℚ)
    (h : s.midCut = some m) :
    EqBand.equalizer 1000 500 (-|m|) ∈ buildSpectralFilter s ∧
    (∀ g, EqBand.equalizer 1000 500 g ∈ buildSpectralFilter s → g ≤ 0) ∧
    buildSpectralFilter s = buildSpectralFilter { s with midCut := some (-m) } := by
  obtain ⟨bb, tb, mc, wa, br⟩ := s
  simp only at h
  subst h
  refine ⟨?_, fun g hg => ?_, ?_⟩
  · exact (mem_buildSpectralFilter _ _).mpr (.inr (.inr (.inl ⟨m, rfl, rfl⟩)))
  · rcases (mem_buildSpectralFilter _ _).mp hg with
      ⟨g2, _, he⟩ | ⟨g2, _, he⟩ | ⟨m2, _, he⟩ | ⟨w2, _, he⟩ | ⟨b2, _, he⟩
    · cases he
    · cases he
    · rw [EqBand.equalizer.injEq] at he
      rw [he.2.2]
      simp [neg_nonpos, abs_nonneg]
    · rw [EqBand.equalizer.injEq] at he
      exfalso
      norm_num at he
    · rw [EqBand.equalizer.injEq] at he
      exfalso
      norm_num at he
  · cases bb <;> cases tb <;> cases wa <;> cases br <;>
      simp [buildSpectralFilter, abs_neg]

/-- Witness for C10 at midCut = 3: the emitted gain is -3 and the compiled
filter list equals the one for midCut = -3. -/
theorem spectral_midcut_gain_witness :
    EqBand.equalizer 1000 500 (-3) ∈ buildSpectralFilter { midCut := some (3 : ℚ) } ∧
    buildSpectralFilter { midCut := some (3 : ℚ) } =
      buildSpectralFilter { midCut := some (-3 : ℚ) } := by
  have h := spectral_midcut_gain { midCut := some (3 : ℚ) } 3 rfl
  have habs : |(3 : ℚ)| = 3 := by norm_num
  constructor
  · have h1 := h.1
    rw [habs] at h1
    exact h1
  · exact h.2.2

end AudioTweaker
